import Mathlib

/-!
Shallow embedding of the update-acquisition and typed-dispatch pipeline of
the max-bot-api-client-go repository (package `maxbot`): the variant decoder
(`bytesToProperUpdate`, `bytesToProperAttachment`, `convertRawAttachments`,
`processMessageAttachments`), the long-poll fetch path (`getUpdates`,
`getUpdatesWithRetry`, the drain loop inside `GetUpdates`), the webhook
handler (`GetHandler`) and the low-level debug send (`debugs.sendMessage`).

Calls into `encoding/json` and the `schemes` package (which is outside the
provided sources) are modelled as oracles on the raw wire records: a raw
update / raw attachment carries its discriminator string together with
booleans saying whether the base-envelope unmarshal and the full variant
unmarshal succeed, exactly the two decode steps the source performs.
-/

namespace MaxBot

/-- Decidable equality for `Except`, so that concrete decoder runs can be
settled by `decide`. -/
instance {ε α : Type} [DecidableEq ε] [DecidableEq α] : DecidableEq (Except ε α) :=
  fun a b =>
    match a, b with
    | Except.error e, Except.error f =>
      if h : e = f then Decidable.isTrue (congrArg Except.error h)
      else Decidable.isFalse (fun hh => h (Except.error.inj hh))
    | Except.error _, Except.ok _ => Decidable.isFalse (fun hh => Except.noConfusion hh)
    | Except.ok _, Except.error _ => Decidable.isFalse (fun hh => Except.noConfusion hh)
    | Except.ok v, Except.ok w =>
      if h : v = w then Decidable.isTrue (congrArg Except.ok h)
      else Decidable.isFalse (fun hh => h (Except.ok.inj hh))

/-- Modelled from the spec: the nine known attachment variants of the
`schemes` package (audio, contact, file, image/photo, inline-keyboard,
location, share, sticker, video); the package itself is not under the
provided sources. -/
inductive KnownAttachment
  | audio
  | contact
  | file
  | photo
  | inlineKeyboard
  | location
  | share
  | sticker
  | video
deriving DecidableEq, Repr

/-- Modelled from the spec: wire discriminator strings for the nine known
attachment variants; mirrors `getAttachmentType` (src/api.go:173-196),
which returns a constructor for a known discriminator and nil otherwise. -/
def getAttachmentType : String → Option KnownAttachment
  | "audio" => some .audio
  | "contact" => some .contact
  | "file" => some .file
  | "image" => some .photo
  | "inline_keyboard" => some .inlineKeyboard
  | "location" => some .location
  | "share" => some .share
  | "sticker" => some .sticker
  | "video" => some .video
  | _ => none

/-- A raw (not yet resolved) attachment payload as it appears on the wire.
`typ` is the discriminator carried by the JSON; `baseOk` says whether
unmarshalling into the base `schemes.Attachment` record succeeds, `fullOk`
whether unmarshalling into the recognized concrete variant succeeds
(oracles for `json.Unmarshal`); `payload` stands for the variant-specific
content. -/
structure RawAttachment where
  typ : String
  baseOk : Bool
  fullOk : Bool
  payload : String
deriving DecidableEq, Repr

/-- A resolved attachment: either a concrete known variant or the base
fallback record that keeps the original discriminator. -/
inductive Attachment
  | base (typ : String)
  | variant (kind : KnownAttachment) (payload : String)
deriving DecidableEq, Repr

/-- `bytesToProperAttachment` (src/api.go:271-290): unmarshal the base
record; look up the constructor for the discriminator; unknown
discriminators return the base record with no error; a recognized
discriminator is fully unmarshalled, and a structural failure there is an
error naming the discriminator. -/
def bytesToProperAttachment (r : RawAttachment) : Except String Attachment :=
  if r.baseOk = false then
    .error "failed to unmarshal base attachment"
  else
    match getAttachmentType r.typ with
    | none => .ok (.base r.typ)
    | some k =>
      if r.fullOk = false then
        .error ("failed to unmarshal attachment of type " ++ r.typ)
      else
        .ok (.variant k r.payload)

/-- `convertRawAttachments` (src/api.go:292-304): decode each raw
attachment in order; the first failure aborts the whole conversion with a
wrapped error; otherwise return the resolved list in array order. -/
def convertRawAttachments : List RawAttachment → Except String (List Attachment)
  | [] => .ok []
  | r :: rest =>
    match bytesToProperAttachment r with
    | .error e => .error ("failed to process attachment: " ++ e)
    | .ok a =>
      match convertRawAttachments rest with
      | .error e => .error e
      | .ok as2 => .ok (a :: as2)

/-- A message body (`schemes.MessageBody` as used by src/api.go): the
resolved attachment list and the transient raw attachment list.
`rawAttachments = none` models a nil Go slice, `some l` a present (possibly
empty) one — the source branches on nil-ness, not emptiness. -/
structure MsgBody where
  attachments : List Attachment
  rawAttachments : Option (List RawAttachment)
deriving DecidableEq, Repr

/-- The nested message inside a `link` (quote/reply), carrying its own
resolved and raw attachment lists. -/
structure LinkedMessage where
  attachments : List Attachment
  rawAttachments : Option (List RawAttachment)
deriving DecidableEq, Repr

/-- A message: a body plus an optional link to a quoted message
(`u.Message.Link` is a nil-able pointer in the source, hence `Option`). -/
structure Message where
  body : MsgBody
  link : Option LinkedMessage
deriving DecidableEq, Repr

/-- Modelled from the spec: the ten known update variants
(src/api.go:126-171 lists their constructors; the `schemes` discriminator
constants are outside the provided sources). -/
inductive KnownUpdateKind
  | messageCallback
  | messageCreated
  | messageRemoved
  | messageEdited
  | botAdded
  | botRemoved
  | userAdded
  | userRemoved
  | botStarted
  | chatTitleChanged
deriving DecidableEq, Repr

/-- Modelled from the spec: wire discriminator strings for the ten known
update variants; mirrors `getUpdateType` (src/api.go:126-171), which
returns a constructor for a known discriminator and nil otherwise. -/
def getUpdateType : String → Option KnownUpdateKind
  | "message_callback" => some .messageCallback
  | "message_created" => some .messageCreated
  | "message_removed" => some .messageRemoved
  | "message_edited" => some .messageEdited
  | "bot_added" => some .botAdded
  | "bot_removed" => some .botRemoved
  | "user_added" => some .userAdded
  | "user_removed" => some .userRemoved
  | "bot_started" => some .botStarted
  | "chat_title_changed" => some .chatTitleChanged
  | _ => none

/-- A raw update payload as fetched from the wire: the discriminator, the
two `json.Unmarshal` oracles (base envelope, full variant), the verbatim
wire text (for the debug-raw copy), and the message content used by the
message-created / message-edited variants. -/
structure RawUpdate where
  typ : String
  baseOk : Bool
  fullOk : Bool
  raw : String
  message : Message
deriving DecidableEq, Repr

/-- A decoded update variant: the two message-carrying variants keep their
message; every other known variant carries no data the pipeline touches. -/
inductive Update
  | messageCreated (debugRaw : String) (message : Message)
  | messageEdited (debugRaw : String) (message : Message)
  | other (kind : KnownUpdateKind) (debugRaw : String)
deriving DecidableEq, Repr

/-- The shared body-or-link attachment resolution that
`processMessageAttachments` (src/api.go:229-268) performs identically for
the message-created and the message-edited case: if the body's raw list is
non-nil, resolve it and append to the body's resolved list; else if a link
exists and its message's raw list is non-nil, resolve that and append to
the linked message's resolved list; else leave the message unchanged. -/
def processMessageBody (m : Message) : Except String Message :=
  match m.body.rawAttachments with
  | some raws =>
    match convertRawAttachments raws with
    | .error e => .error e
    | .ok atts =>
      .ok { m with body := { m.body with attachments := m.body.attachments ++ atts } }
  | none =>
    match m.link with
    | some l =>
      match l.rawAttachments with
      | some raws =>
        match convertRawAttachments raws with
        | .error e => .error e
        | .ok atts =>
          .ok { m with link := some { l with attachments := l.attachments ++ atts } }
      | none => .ok m
    | none => .ok m

/-- `processMessageAttachments` (src/api.go:229-268): attachment resolution
runs only for the message-created and message-edited variants; every other
variant passes through untouched. -/
def processMessageAttachments (u : Update) : Except String Update :=
  match u with
  | .messageCreated dr m =>
    match processMessageBody m with
    | .error e => .error e
    | .ok m2 => .ok (.messageCreated dr m2)
  | .messageEdited dr m =>
    match processMessageBody m with
    | .error e => .error e
    | .ok m2 => .ok (.messageEdited dr m2)
  | u => .ok u

/-- `bytesToProperUpdate` (src/api.go:199-226): unmarshal the base
envelope; keep the verbatim wire text only when debug capture is enabled;
an unknown discriminator is an error; construct and fully unmarshal the
recognized variant; then run attachment resolution, whose failure is
wrapped and aborts the decode. -/
def bytesToProperUpdate (debug : Bool) (r : RawUpdate) : Except String Update :=
  if r.baseOk = false then
    .error "failed to unmarshal base update"
  else
    let debugRaw := if debug then r.raw else ""
    match getUpdateType r.typ with
    | none => .error ("unknown update type: " ++ r.typ)
    | some k =>
      if r.fullOk = false then
        .error ("failed to unmarshal update of type " ++ r.typ)
      else
        let u : Update :=
          match k with
          | .messageCreated => .messageCreated debugRaw r.message
          | .messageEdited => .messageEdited debugRaw r.message
          | k2 => .other k2 debugRaw
        match processMessageAttachments u with
        | .error e => .error ("failed to process message attachments: " ++ e)
        | .ok u2 => .ok u2

/-- `schemes.UpdateList`: the response shape of the update-fetch endpoint,
a page of raw update objects plus an optional next-page marker
(`Marker *int64` in the source, hence `Option Int`). -/
structure UpdateList where
  updates : List RawUpdate
  marker : Option Int
deriving DecidableEq, Repr

/-- The classified outcome of one transport call, as `getUpdates`
(src/api.go:335-363) distinguishes it: a `TimeoutError`, a context
cancellation / deadline expiry, an ordinary error, or a readable body
whose read or JSON unmarshal may in turn fail. -/
inductive TransportOutcome
  | timeoutErr
  | canceledErr
  | deadlineErr
  | otherErr (msg : String)
  | bodyReadErr (msg : String)
  | bodyParseErr (msg : String)
  | bodyOk (ul : UpdateList)
deriving DecidableEq, Repr

/-- The error value `getUpdates` returns: the caller
`getUpdatesWithRetry` only distinguishes context cancellation / deadline
expiry from everything else. -/
inductive GetUpdatesError
  | canceled
  | deadlineExceeded
  | other (msg : String)
deriving DecidableEq, Repr

/-- Whether the error is a context cancellation or deadline expiry, the
test at src/api.go:383. -/
def GetUpdatesError.isCtx : GetUpdatesError → Bool
  | .canceled => true
  | .deadlineExceeded => true
  | .other _ => false

/-- The error's message text, as `%w` wrapping would render it. -/
def GetUpdatesError.message : GetUpdatesError → String
  | .canceled => "context canceled"
  | .deadlineExceeded => "context deadline exceeded"
  | .other m => m

/-- `getUpdates` (src/api.go:315-366): a transport `TimeoutError` is
normalized to an empty successful page (zero updates, nil marker) with no
error; cancellation and deadline expiry propagate as the context's error;
any other transport error, body-read error or unmarshal error is wrapped
and surfaced. -/
def getUpdates (tr : TransportOutcome) : Except GetUpdatesError UpdateList :=
  match tr with
  | .timeoutErr => .ok { updates := [], marker := none }
  | .canceledErr => .error .canceled
  | .deadlineErr => .error .deadlineExceeded
  | .otherErr m => .error (.other ("failed to get updates: " ++ m))
  | .bodyReadErr m => .error (.other ("failed to read response body: " ++ m))
  | .bodyParseErr m => .error (.other ("failed to unmarshal updates: " ++ m))
  | .bodyOk ul => .ok ul

/-- Modelled from the spec: the retry cap `maxRetries`; the constant is
declared outside the provided sources, and the spec fixes it at 5
("after exhausting 5 attempts a terminal error names failed after 5
attempts"). -/
def maxRetries : Nat := 5

/-- One pass of the retry loop of `getUpdatesWithRetry`
(src/api.go:376-396). `outcomes i` is the transport outcome of attempt
`i`; `cancelDuringWait i` says whether the context fires during the
backoff wait that follows attempt `i`. Returns the final result (the
terminal-error case rendered as its message string) together with the
list of backoff waits performed, in seconds. `fuel` counts the attempts
still allowed, so the entry point passes `maxRetries`. -/
def retryAux (outcomes : Nat → TransportOutcome) (cancelDuringWait : Nat → Bool)
    (lastErr : GetUpdatesError) : Nat → Nat → Except String UpdateList × List Nat
  | _, 0 =>
    (.error ("failed after " ++ toString maxRetries ++ " attempts: " ++ lastErr.message), [])
  | attempt, fuel + 1 =>
    match getUpdates (outcomes attempt) with
    | .ok ul => (.ok ul, [])
    | .error e =>
      if e.isCtx then
        (.error e.message, [])
      else
        match fuel with
        | 0 =>
          (.error ("failed after " ++ toString maxRetries ++ " attempts: " ++ e.message), [])
        | f + 1 =>
          if cancelDuringWait attempt then
            (.error "context canceled", [])
          else
            let rest := retryAux outcomes cancelDuringWait e (attempt + 1) (f + 1)
            (rest.1, 2 ^ attempt :: rest.2)

/-- `getUpdatesWithRetry` (src/api.go:368-399): up to `maxRetries`
attempts; success returns at once; a context error returns at once; a
transient failure waits `2 ^ attempt` seconds (honoring cancellation
during the wait) before the next attempt; exhausting every attempt
returns the terminal "failed after N attempts" error wrapping the last
cause. -/
def getUpdatesWithRetry (outcomes : Nat → TransportOutcome)
    (cancelDuringWait : Nat → Bool) : Except String UpdateList × List Nat :=
  retryAux outcomes cancelDuringWait (.other "") 0 maxRetries

/-- The per-page decode-and-emit loop of `GetUpdates`
(src/api.go:434-445): each raw update is decoded; a decode failure is
skipped with a bare `continue` — the branch body contains no log call —
and a success is emitted to the stream. Returns the emitted updates in
page order together with the log lines produced by the loop. -/
def processPage (debug : Bool) : List RawUpdate → List Update × List String
  | [] => ([], [])
  | r :: rest =>
    let tail := processPage debug rest
    match bytesToProperUpdate debug r with
    | .error _ => tail
    | .ok u => (u :: tail.1, tail.2)

/-- The result of one tick's drain loop: the markers sent on the
successive fetch requests, the updates emitted to the stream, the log
lines produced, and the cursor value left for the next tick. -/
structure DrainResult where
  requests : List Int
  emitted : List Update
  logs : List String
  marker : Int
deriving DecidableEq, Repr

/-- The inner drain loop of `GetUpdates` (src/api.go:417-450): each
iteration sends a request carrying the current marker; a fetch error is
logged and breaks the loop; a page with zero updates breaks the loop
before the marker-adoption step, so it never advances the cursor; a
non-empty page is decoded and emitted, and then the server-returned
marker is adopted only when it is non-nil. `responses` lists the
successive results of `getUpdatesWithRetry` the loop consumes. -/
def drainLoop (debug : Bool) (marker : Int) :
    List (Except String UpdateList) → DrainResult
  | [] => { requests := [], emitted := [], logs := [], marker := marker }
  | resp :: rest =>
    match resp with
    | .error e =>
      { requests := [marker], emitted := [], logs := ["failed to get updates: " ++ e],
        marker := marker }
    | .ok ul =>
      match ul.updates with
      | [] => { requests := [marker], emitted := [], logs := [], marker := marker }
      | u :: us =>
        let page := processPage debug (u :: us)
        let next := match ul.marker with
          | some v => v
          | none => marker
        let tail := drainLoop debug next rest
        { requests := marker :: tail.requests, emitted := page.1 ++ tail.emitted,
          logs := page.2 ++ tail.logs, marker := tail.marker }

/-- An inbound webhook request as `GetHandler` inspects it: the HTTP
method, whether reading the body succeeds (`io.ReadAll`), and the raw
update payload carried. -/
structure WebhookRequest where
  method : String
  bodyReadOk : Bool
  body : RawUpdate
deriving DecidableEq, Repr

/-- `GetHandler` (src/api.go:459-485): non-POST is rejected with 405
(StatusMethodNotAllowed); a body-read failure or a decode failure is
rejected with 400 (StatusBadRequest); otherwise a non-blocking offer into
the bounded stream either enqueues the update and answers 200, or — when
the queue is full — answers 503 (StatusServiceUnavailable) without
enqueuing. The queue is modelled by its contents `q` and capacity `cap`;
the Go `select` with a `default` arm succeeds exactly when the buffered
channel has room. Returns the HTTP status and the queue afterwards. -/
def GetHandler (debug : Bool) (cap : Nat) (q : List Update)
    (req : WebhookRequest) : Nat × List Update :=
  if req.method ≠ "POST" then
    (405, q)
  else if req.bodyReadOk = false then
    (400, q)
  else
    match bytesToProperUpdate debug req.body with
    | .error _ => (400, q)
    | .ok u =>
      if q.length < cap then
        (200, q ++ [u])
      else
        (503, q)

/-- The outcome of decoding the error-envelope response inside
`debugs.sendMessage`: the `json.Decode` call may fail, or yield an
envelope whose `Code` field may be empty. -/
inductive EnvelopeDecode
  | failed
  | decoded (code : String) (message : String)
deriving DecidableEq, Repr

/-- What `debugs.sendMessage` returns: nil, the transport error, or the
decoded API error envelope. -/
inductive SendResult
  | nil
  | requestErr (msg : String)
  | apiErr (code : String) (message : String)
deriving DecidableEq, Repr

/-- `debugs.sendMessage` (src/debugs.go:33-61): a transport error is
returned as-is; when the request succeeds, a failure to re-decode the
error envelope returns nil (the decode error is masked as success); an
envelope with an empty Code also returns nil; otherwise the envelope is
returned as the error. -/
def sendMessage (reqOutcome : Except String Unit) (envelope : EnvelopeDecode) :
    SendResult :=
  match reqOutcome with
  | .error e => .requestErr e
  | .ok _ =>
    match envelope with
    | .failed => .nil
    | .decoded code message =>
      if code = "" then .nil else .apiErr code message

/-! Concrete fixtures used by witnesses and counterexamples. -/

/-- An empty message: no attachments, no raw attachments, no link. -/
def emptyMsg : Message :=
  { body := { attachments := [], rawAttachments := none }, link := none }

/-- A raw audio attachment that decodes successfully. -/
def rawAudio : RawAttachment :=
  { typ := "audio", baseOk := true, fullOk := true, payload := "a1" }

/-- A raw audio attachment whose full variant unmarshal fails. -/
def rawBadAudio : RawAttachment :=
  { typ := "audio", baseOk := true, fullOk := false, payload := "bad" }

/-- A valid message-created raw update with an empty message. -/
def validCreated : RawUpdate :=
  { typ := "message_created", baseOk := true, fullOk := true, raw := "r1",
    message := emptyMsg }

/-- A raw update with the unknown discriminator of the spec's test. -/
def unknownUpd : RawUpdate :=
  { typ := "totally_unknown", baseOk := true, fullOk := true, raw := "r2",
    message := emptyMsg }

/-- A valid bot-started raw update. -/
def validStarted : RawUpdate :=
  { typ := "bot_started", baseOk := true, fullOk := true, raw := "r3",
    message := emptyMsg }

/-- The three-item page of the unknown-discriminator scenario: two valid
items around one with an unknown type. -/
def pageC3 : List RawUpdate := [validCreated, unknownUpd, validStarted]

/-- A message whose body has no raw attachments while its link's nested
message carries one. -/
def linkMsg : Message :=
  { body := { attachments := [], rawAttachments := none },
    link := some { attachments := [], rawAttachments := some [rawAudio] } }

/-- `linkMsg` after attachment resolution: the resolved audio attachment
sits on the linked message's list, the body's list stays empty. -/
def linkMsgResolved : Message :=
  { body := { attachments := [], rawAttachments := none },
    link := some { attachments := [Attachment.variant KnownAttachment.audio "a1"],
                   rawAttachments := some [rawAudio] } }

/-- A message whose body's raw-attachment list is present but empty while
its link carries a decodable raw attachment. -/
def emptyRawListMsg : Message :=
  { body := { attachments := [], rawAttachments := some [] },
    link := some { attachments := [], rawAttachments := some [rawAudio] } }

/-- A message-edited raw update whose body has no raw attachments while
its link's nested message carries one that fails to decode. -/
def badLinkUpd : RawUpdate :=
  { typ := "message_edited", baseOk := true, fullOk := true, raw := "r4",
    message := { body := { attachments := [], rawAttachments := none },
                 link := some { attachments := [], rawAttachments := some [rawBadAudio] } } }

/-- The cursor-monotonicity scenario: three non-empty pages returning
markers 5, absent, 9, then an empty page ending the drain. -/
def scenarioC1 : List (Except String UpdateList) :=
  [Except.ok { updates := [validStarted], marker := some 5 },
   Except.ok { updates := [validStarted], marker := none },
   Except.ok { updates := [validStarted], marker := some 9 },
   Except.ok { updates := [], marker := none }]

/-- A well-formed webhook POST request. -/
def postReq : WebhookRequest :=
  { method := "POST", bodyReadOk := true, body := validStarted }

/-- A webhook request with the wrong method. -/
def getReq : WebhookRequest :=
  { method := "GET", bodyReadOk := true, body := validStarted }

/-! Helper lemmas shared by the claim theorems. -/

/-- The page loop of `GetUpdates` produces no log lines: its decode-failure
branch is a bare `continue` (src/api.go:436-438). -/
theorem processPage_logs_nil (debug : Bool) (raws : List RawUpdate) :
    (processPage debug raws).2 = [] := by
  induction raws with
  | nil => rfl
  | cons r rest ih =>
    simp only [processPage]
    cases h : bytesToProperUpdate debug r <;> simpa [h] using ih

/-- The page loop emits exactly the successfully decoded updates, in page
order. -/
theorem processPage_emitted (debug : Bool) (raws : List RawUpdate) :
    (processPage debug raws).1 =
      raws.filterMap (fun x => (bytesToProperUpdate debug x).toOption) := by
  induction raws with
  | nil => rfl
  | cons r rest ih =>
    simp only [processPage, List.filterMap_cons]
    cases h : bytesToProperUpdate debug r <;> simp [h, Except.toOption, ih]

/-- Removing one item whose decode fails does not change the page loop's
output: the offending item alone is skipped. -/
theorem processPage_skips_failing (debug : Bool) (pre post : List RawUpdate)
    (r : RawUpdate) (e : String) (herr : bytesToProperUpdate debug r = Except.error e) :
    processPage debug (pre ++ r :: post) = processPage debug (pre ++ post) := by
  induction pre with
  | nil => simp [processPage, herr]
  | cons p pre ih =>
    simp only [List.cons_append, processPage, List.append_eq]
    rw [ih]

/-! The claim theorems. -/

/-- C5: a fetch call whose transport error is classified as a
TimeoutError returns a page with zero updates, a nil marker, and no
error — the expected long-poll timeout is normalized to an empty
successful page and never surfaced as an error. -/
theorem C5_timeout_normalized_to_empty_page :
    getUpdates TransportOutcome.timeoutErr =
      Except.ok { updates := [], marker := none } := rfl

/-- C9: in the low-level send, when the HTTP request succeeds but JSON
re-decoding of the error envelope fails, `sendMessage` returns nil — the
secondary decode error is masked as success. -/
theorem C9_envelope_decode_failure_masked_as_success :
    sendMessage (Except.ok ()) EnvelopeDecode.failed = SendResult.nil := rfl

/-- C7: `bytesToProperAttachment` never fails for an unrecognized
discriminator — it returns the base attachment record carrying the
original type value with no error; a structural decode failure on the
recognized path still propagates as an error naming the type. -/
theorem C7_unknown_attachment_degrades_to_base (r : RawAttachment)
    (hbase : r.baseOk = true) :
    (getAttachmentType r.typ = none →
      bytesToProperAttachment r = Except.ok (Attachment.base r.typ)) ∧
    (∀ k, getAttachmentType r.typ = some k → r.fullOk = false →
      bytesToProperAttachment r =
        Except.error ("failed to unmarshal attachment of type " ++ r.typ)) := by
  constructor
  · intro hnone
    simp [bytesToProperAttachment, hbase, hnone]
  · intro k hk hfull
    simp [bytesToProperAttachment, hbase, hk, hfull]

/-- C7 witness: the spec's `new_widget` attachment decodes without error
to the base record keeping the original type, and a recognized `audio`
attachment with a structural failure propagates an error. -/
theorem C7_unknown_attachment_degrades_to_base_witness :
    bytesToProperAttachment { typ := "new_widget", baseOk := true, fullOk := true, payload := "w" } =
      Except.ok (Attachment.base "new_widget") ∧
    bytesToProperAttachment rawBadAudio =
      Except.error ("failed to unmarshal attachment of type " ++ "audio") :=
  ⟨(C7_unknown_attachment_degrades_to_base
      { typ := "new_widget", baseOk := true, fullOk := true, payload := "w" } rfl).1 rfl,
   (C7_unknown_attachment_degrades_to_base rawBadAudio rfl).2
     KnownAttachment.audio rfl rfl⟩

/-- C10: a body whose raw-attachment list is present but empty takes the
body branch of `processMessageAttachments`: nothing is appended and the
link's raw attachments are not resolved even when the linked message
carries some — branch selection tests nil-ness, not emptiness. -/
theorem C10_present_empty_raw_list_takes_body_branch (dr : String) (m : Message)
    (h : m.body.rawAttachments = some []) :
    processMessageAttachments (Update.messageCreated dr m) =
      Except.ok (Update.messageCreated dr m) ∧
    processMessageAttachments (Update.messageEdited dr m) =
      Except.ok (Update.messageEdited dr m) := by
  constructor <;>
    (simp [processMessageAttachments, processMessageBody, h, convertRawAttachments]; rw [← h])

/-- C10 witness: a concrete message with a present-but-empty body raw
list and a link carrying a decodable raw attachment passes through
unchanged — the link's attachment is left unresolved. -/
theorem C10_present_empty_raw_list_takes_body_branch_witness :
    processMessageAttachments (Update.messageCreated "" emptyRawListMsg) =
      Except.ok (Update.messageCreated "" emptyRawListMsg) ∧
    processMessageAttachments (Update.messageEdited "" emptyRawListMsg) =
      Except.ok (Update.messageEdited "" emptyRawListMsg) :=
  C10_present_empty_raw_list_takes_body_branch "" emptyRawListMsg rfl

/-- C2 counterexample: for a message-edited update whose body has no raw
attachments while its link's nested message has one, the decoder puts the
resolved list on the linked message — the top-level body's attachment
list stays empty and does not equal the linked message's resolved list,
contrary to the claim. -/
theorem C2_counterexample :
    processMessageAttachments (Update.messageEdited "" linkMsg) =
      Except.ok (Update.messageEdited "" linkMsgResolved) ∧
    linkMsgResolved.link =
      some { attachments := [Attachment.variant KnownAttachment.audio "a1"],
             rawAttachments := some [rawAudio] } ∧
    linkMsgResolved.body.attachments = [] ∧
    linkMsgResolved.body.attachments ≠ [Attachment.variant KnownAttachment.audio "a1"] := by
  decide

/-- C2 (amended): when the body has no raw attachments and the link's
nested message has some, the decoder resolves the link's raw attachments
and appends them to the linked message's own attachment list, leaving the
top-level body untouched; and a body with its own raw attachments is
resolved into the body alone, the link left unchanged — the two sources
are never combined. -/
theorem C2_link_fallback_resolves_into_linked_message (dr : String) (m : Message)
    (l : LinkedMessage) (raws : List RawAttachment) (atts : List Attachment)
    (hbody : m.body.rawAttachments = none) (hlink : m.link = some l)
    (hraws : l.rawAttachments = some raws)
    (hconv : convertRawAttachments raws = Except.ok atts) :
    processMessageAttachments (Update.messageEdited dr m) =
      Except.ok (Update.messageEdited dr
        { m with link := some { l with attachments := l.attachments ++ atts } }) ∧
    processMessageAttachments (Update.messageCreated dr m) =
      Except.ok (Update.messageCreated dr
        { m with link := some { l with attachments := l.attachments ++ atts } }) ∧
    (∀ (m2 : Message) (bs : List RawAttachment) (atts2 : List Attachment),
      m2.body.rawAttachments = some bs → convertRawAttachments bs = Except.ok atts2 →
      processMessageAttachments (Update.messageEdited dr m2) =
        Except.ok (Update.messageEdited dr
          { m2 with body := { m2.body with attachments := m2.body.attachments ++ atts2 } })) := by
  refine ⟨?_, ?_, ?_⟩
  · simp [processMessageAttachments, processMessageBody, hbody, hlink, hraws, hconv]
  · simp [processMessageAttachments, processMessageBody, hbody, hlink, hraws, hconv]
  · intro m2 bs atts2 h2 hc2
    simp [processMessageAttachments, processMessageBody, h2, hc2]

/-- C2 witness: the amended behavior at the concrete message of the
counterexample. -/
theorem C2_link_fallback_resolves_into_linked_message_witness :
    processMessageAttachments (Update.messageEdited "" linkMsg) =
      Except.ok (Update.messageEdited "" linkMsgResolved) :=
  (C2_link_fallback_resolves_into_linked_message "" linkMsg
    { attachments := [], rawAttachments := some [rawAudio] } [rawAudio]
    [Attachment.variant KnownAttachment.audio "a1"] rfl rfl rfl (by decide)).1

/-- C8: a decode failure of any single raw attachment aborts the whole
conversion — `convertRawAttachments` propagates a wrapped error naming
the failing attachment and never returns a partial list — and the
update-level decode aborts with the doubly wrapped error, returning no
update, whether the failing raw-attachment list sits in the message
body or in the linked message, for both the message-created and the
message-edited variant. -/
theorem C8_attachment_failure_aborts_update (l : List RawAttachment)
    (hfail : ∃ r ∈ l, ∃ e, bytesToProperAttachment r = Except.error e) :
    ∃ e, (∃ r ∈ l, bytesToProperAttachment r = Except.error e) ∧
      convertRawAttachments l = Except.error ("failed to process attachment: " ++ e) ∧
      ∀ (debug : Bool) (ru : RawUpdate), ru.baseOk = true → ru.fullOk = true →
        (ru.typ = "message_created" ∨ ru.typ = "message_edited") →
        (ru.message.body.rawAttachments = some l ∨
          (ru.message.body.rawAttachments = none ∧
            ∃ lk, ru.message.link = some lk ∧ lk.rawAttachments = some l)) →
        bytesToProperUpdate debug ru =
          Except.error ("failed to process message attachments: " ++
            ("failed to process attachment: " ++ e)) := by
  have main : ∃ e, (∃ r ∈ l, bytesToProperAttachment r = Except.error e) ∧
      convertRawAttachments l = Except.error ("failed to process attachment: " ++ e) := by
    induction l with
    | nil => simp at hfail
    | cons r rest ih =>
      cases h : bytesToProperAttachment r with
      | error e =>
        exact ⟨e, ⟨r, List.mem_cons_self r rest, h⟩, by simp [convertRawAttachments, h]⟩
      | ok a =>
        have hrest : ∃ r2 ∈ rest, ∃ e, bytesToProperAttachment r2 = Except.error e := by
          rcases hfail with ⟨r2, hr2, e2, he2⟩
          rcases List.mem_cons.mp hr2 with rfl | hmem
          · rw [h] at he2; exact absurd he2 (by simp)
          · exact ⟨r2, hmem, e2, he2⟩
        rcases ih hrest with ⟨e, hmem, hconv⟩
        refine ⟨e, ⟨hmem.choose, List.mem_cons_of_mem r hmem.choose_spec.1, hmem.choose_spec.2⟩, ?_⟩
        simp [convertRawAttachments, h, hconv]
  rcases main with ⟨e, hmem, hconv⟩
  refine ⟨e, hmem, hconv, ?_⟩
  intro debug ru hb hf htyp hplace
  have hgetC : getUpdateType "message_created" = some KnownUpdateKind.messageCreated := by decide
  have hgetE : getUpdateType "message_edited" = some KnownUpdateKind.messageEdited := by decide
  rcases htyp with ht | ht
  · rcases hplace with hm | ⟨hbody, lk, hlk, hraw⟩
    · simp [bytesToProperUpdate, hb, hf, ht, hgetC, processMessageAttachments,
        processMessageBody, hm, hconv]
    · simp [bytesToProperUpdate, hb, hf, ht, hgetC, processMessageAttachments,
        processMessageBody, hbody, hlk, hraw, hconv]
  · rcases hplace with hm | ⟨hbody, lk, hlk, hraw⟩
    · simp [bytesToProperUpdate, hb, hf, ht, hgetE, processMessageAttachments,
        processMessageBody, hm, hconv]
    · simp [bytesToProperUpdate, hb, hf, ht, hgetE, processMessageAttachments,
        processMessageBody, hbody, hlk, hraw, hconv]

/-- C8 witness: a singleton list holding an attachment whose full
unmarshal fails aborts the conversion and the update-level decode for
every placement and both message variants; concretely, a message-edited
update carrying the failing list on its linked message aborts with the
doubly wrapped error. -/
theorem C8_attachment_failure_aborts_update_witness :
    (∃ e, (∃ r ∈ [rawBadAudio], bytesToProperAttachment r = Except.error e) ∧
      convertRawAttachments [rawBadAudio] =
        Except.error ("failed to process attachment: " ++ e) ∧
      ∀ (debug : Bool) (ru : RawUpdate), ru.baseOk = true → ru.fullOk = true →
        (ru.typ = "message_created" ∨ ru.typ = "message_edited") →
        (ru.message.body.rawAttachments = some [rawBadAudio] ∨
          (ru.message.body.rawAttachments = none ∧
            ∃ lk, ru.message.link = some lk ∧ lk.rawAttachments = some [rawBadAudio])) →
        bytesToProperUpdate debug ru =
          Except.error ("failed to process message attachments: " ++
            ("failed to process attachment: " ++ e))) ∧
    bytesToProperUpdate false badLinkUpd =
      Except.error ("failed to process message attachments: " ++
        ("failed to process attachment: " ++
          "failed to unmarshal attachment of type audio")) := by
  have h := C8_attachment_failure_aborts_update [rawBadAudio]
    ⟨rawBadAudio, by simp, "failed to unmarshal attachment of type audio", by decide⟩
  exact ⟨h, by decide⟩

/-- C3 counterexample: on the page holding one unknown-type item between
two valid ones, the page loop emits exactly the two valid updates in
order but produces no log line at all — the decode-failure branch of the
loop is a bare `continue` — contrary to the claim that a log line is
emitted for the skipped item. -/
theorem C3_counterexample :
    (processPage false pageC3).1 =
      [Update.messageCreated "" emptyMsg, Update.other KnownUpdateKind.botStarted ""] ∧
    (processPage false pageC3).2 = [] ∧
    (drainLoop false 0 [Except.ok { updates := pageC3, marker := none }]).logs = [] := by
  decide

/-- C3 (amended): the fetch loop skips only the offending item — deleting
it from the page leaves the loop's whole output unchanged, so the valid
updates are emitted in their original relative order and the failure is
not fatal to the rest of the page — the unknown item is silently absent,
no log line is emitted for it, and the emitted stream is exactly the
successfully decoded items in page order. -/
theorem C3_unknown_update_skipped_silently (debug : Bool)
    (pre post : List RawUpdate) (r : RawUpdate) (e : String)
    (herr : bytesToProperUpdate debug r = Except.error e) :
    processPage debug (pre ++ r :: post) = processPage debug (pre ++ post) ∧
    (∀ raws : List RawUpdate, (processPage debug raws).2 = []) ∧
    (∀ raws : List RawUpdate, (processPage debug raws).1 =
      raws.filterMap (fun x => (bytesToProperUpdate debug x).toOption)) :=
  ⟨processPage_skips_failing debug pre post r e herr,
   processPage_logs_nil debug,
   processPage_emitted debug⟩

/-- C3 witness: the amended behavior at the concrete three-item page. -/
theorem C3_unknown_update_skipped_silently_witness :
    processPage false pageC3 = processPage false [validCreated, validStarted] ∧
    (∀ raws : List RawUpdate, (processPage false raws).2 = []) ∧
    (∀ raws : List RawUpdate, (processPage false raws).1 =
      raws.filterMap (fun x => (bytesToProperUpdate false x).toOption)) :=
  C3_unknown_update_skipped_silently false [validCreated] [validStarted] unknownUpd
    "unknown update type: totally_unknown" (by decide)

/-- C6 counterexample: a webhook request with the wrong method is
answered with 405 (method not allowed), not with the 400 the claim
states. -/
theorem C6_counterexample :
    GetHandler false 100 [] getReq = (405, []) ∧ (405 : Nat) ≠ 400 := by
  decide

/-- C6 (amended): the webhook handler responds 200 when a valid POST body
is decoded and enqueued, 400 on a malformed body, 405 on a wrong method,
and 503 when the internal queue is full; in the full-queue case the item
is not enqueued and the offer is non-blocking. -/
theorem C6_webhook_status_codes (debug : Bool) (cap : Nat) (q : List Update)
    (req : WebhookRequest) :
    (req.method ≠ "POST" → GetHandler debug cap q req = (405, q)) ∧
    (req.method = "POST" → req.bodyReadOk = false →
      GetHandler debug cap q req = (400, q)) ∧
    (∀ e, req.method = "POST" → req.bodyReadOk = true →
      bytesToProperUpdate debug req.body = Except.error e →
      GetHandler debug cap q req = (400, q)) ∧
    (∀ u, req.method = "POST" → req.bodyReadOk = true →
      bytesToProperUpdate debug req.body = Except.ok u → q.length < cap →
      GetHandler debug cap q req = (200, q ++ [u])) ∧
    (∀ u, req.method = "POST" → req.bodyReadOk = true →
      bytesToProperUpdate debug req.body = Except.ok u → ¬ q.length < cap →
      GetHandler debug cap q req = (503, q)) := by
  refine ⟨?_, ?_, ?_, ?_, ?_⟩
  · intro hm
    simp [GetHandler, hm]
  · intro hm hr
    simp [GetHandler, hm, hr]
  · intro e hm hr hd
    simp [GetHandler, hm, hr, hd]
  · intro u hm hr hd hq
    simp [GetHandler, hm, hr, hd, hq]
  · intro u hm hr hd hq
    simp [GetHandler, hm, hr, hd, hq]

/-- C6 witness: a valid POST against a queue already at capacity returns
503 and leaves the queue unchanged; the same POST against a queue with
room returns 200 and enqueues the decoded update. -/
theorem C6_webhook_status_codes_witness :
    GetHandler false 1 [Update.other KnownUpdateKind.botStarted ""] postReq =
      (503, [Update.other KnownUpdateKind.botStarted ""]) ∧
    GetHandler false 1 [] postReq =
      (200, [Update.other KnownUpdateKind.botStarted ""]) :=
  ⟨(C6_webhook_status_codes false 1 [Update.other KnownUpdateKind.botStarted ""] postReq).2.2.2.2
      (Update.other KnownUpdateKind.botStarted "") rfl rfl (by decide) (by decide),
   (C6_webhook_status_codes false 1 [] postReq).2.2.2.1
      (Update.other KnownUpdateKind.botStarted "") rfl rfl (by decide) (by decide)⟩

/-- C4: on persistent transient failures `getUpdatesWithRetry` makes
`maxRetries` = 5 attempts, waiting 2 ^ attempt seconds before the next
one (1s, 2s, 4s, 8s between successive attempts), and after exhausting
them returns a terminal error reading "failed after 5 attempts" wrapping
the last cause. -/
theorem C4_retry_backoff_and_terminal_error (outcomes : Nat → TransportOutcome)
    (msgs : Nat → String)
    (h : ∀ i, i < maxRetries → outcomes i = TransportOutcome.otherErr (msgs i)) :
    getUpdatesWithRetry outcomes (fun _ => false) =
      (Except.error ("failed after " ++ toString maxRetries ++ " attempts: " ++
        ("failed to get updates: " ++ msgs 4)), [1, 2, 4, 8]) ∧
    "failed after " ++ toString maxRetries ++ " attempts: " =
      "failed after 5 attempts: " := by
  refine ⟨?_, by decide⟩
  have h0 := h 0 (by decide)
  have h1 := h 1 (by decide)
  have h2 := h 2 (by decide)
  have h3 := h 3 (by decide)
  have h4 := h 4 (by decide)
  simp [getUpdatesWithRetry, maxRetries, retryAux, h0, h1, h2, h3, h4, getUpdates,
    GetUpdatesError.isCtx, GetUpdatesError.message]

/-- C4 witness: five identical transient failures produce the backoff
waits 1, 2, 4, 8 and the terminal "failed after 5 attempts" error. -/
theorem C4_retry_backoff_and_terminal_error_witness :
    getUpdatesWithRetry (fun _ => TransportOutcome.otherErr "boom") (fun _ => false) =
      (Except.error ("failed after " ++ toString maxRetries ++ " attempts: " ++
        ("failed to get updates: " ++ "boom")), [1, 2, 4, 8]) ∧
    "failed after " ++ toString maxRetries ++ " attempts: " =
      "failed after 5 attempts: " :=
  C4_retry_backoff_and_terminal_error (fun _ => TransportOutcome.otherErr "boom")
    (fun _ => "boom") (fun _ _ => rfl)

/-- C1: across the drain loop of GetUpdates the cursor only moves
forward by adoption of server-returned markers: a page with zero updates
ends the drain without advancing the cursor; after a non-empty page the
next request carries the returned marker when it is non-nil and the
unchanged one when it is absent; and on the scenario of pages returning
markers 5, absent, 9 the successive requests carry 0, 5, 5, 9 — a
non-decreasing sequence. -/
theorem C1_cursor_only_moves_forward :
    (∀ (debug : Bool) (m : Int) (mk : Option Int)
        (rest : List (Except String UpdateList)),
      (drainLoop debug m (Except.ok { updates := [], marker := mk } :: rest)).marker = m ∧
      (drainLoop debug m (Except.ok { updates := [], marker := mk } :: rest)).requests = [m]) ∧
    (∀ (debug : Bool) (m : Int) (u : RawUpdate) (us : List RawUpdate) (mk : Option Int)
        (rest : List (Except String UpdateList)),
      (drainLoop debug m (Except.ok { updates := u :: us, marker := mk } :: rest)).requests =
        m :: (drainLoop debug (mk.getD m) rest).requests ∧
      (drainLoop debug m (Except.ok { updates := u :: us, marker := mk } :: rest)).marker =
        (drainLoop debug (mk.getD m) rest).marker) ∧
    (drainLoop false 0 scenarioC1).requests = [0, 5, 5, 9] ∧
    (drainLoop false 0 scenarioC1).marker = 9 ∧
    List.Chain' (fun a b => a ≤ b) (drainLoop false 0 scenarioC1).requests := by
  have hreq : (drainLoop false 0 scenarioC1).requests = [0, 5, 5, 9] := by decide
  refine ⟨?_, ?_, hreq, by decide, ?_⟩
  · intro debug m mk rest
    constructor <;> simp [drainLoop]
  · intro debug m u us mk rest
    cases mk <;> constructor <;> simp [drainLoop, Option.getD]
  · rw [hreq]
    norm_num [List.chain'_cons, List.chain'_singleton]

end MaxBot
